import Mathlib

/-!
A shallow embedding of the conversation-state engine of the Gemini chatbot
repository (src/state.ts, src/app.ts, src/ts/services/StorageService.ts),
together with theorems settling the specification's claims about it.

Conventions of the embedding:
* JS strings are `String`, JS numbers used as timestamps are `Nat`.
* JS `undefined`/`null`-able fields are `Option`; JS truthiness of a string
  is "nonempty", of an optional boolean "present and true".
* `Date.now()` is passed in as an explicit `now : Nat` parameter.
* The outcome of the one asynchronous API call (the extracted
  `aiResponseText`, or the thrown error's message) is passed in as
  `Except String String`, modelling the external completion-API adapter.
* Subscriber notification (`AppState.updateState` always ends in
  `this.notify()`) is counted by a `notifications : Nat` field of `Store`;
  the iteration inside one `notify` call is modelled separately by
  `notifyLoop`.
-/

namespace GeminiChat

/-- Message roles, from `ChatMessage.role` in src/state.ts. -/
inductive Role where
  | user
  | model
  | system
deriving DecidableEq

/-- The `type` discriminator of `UserMessageContentPart` in src/state.ts. -/
inductive PartType where
  | text
  | image
deriving DecidableEq

/-- `UserMessageContentPart` from src/state.ts: `{ type, data, mimeType? }`. -/
structure UserMessageContentPart where
  type : PartType
  data : String
  mimeType : Option String := none
deriving DecidableEq

/-- The optional `meta` object of `ChatMessage` in src/state.ts. -/
structure MessageMeta where
  isLoading : Option Bool := none
  error : Option String := none
  edited : Option Bool := none
  regenerated : Option Bool := none
  originalMessageId : Option String := none
deriving DecidableEq

/-- `ChatMessage` from src/state.ts. -/
structure ChatMessage where
  id : String
  role : Role
  content : List UserMessageContentPart
  timestamp : Nat
  meta : Option MessageMeta := none
deriving DecidableEq

/-- The function stored by `openConfirmModal`; never serialized. -/
def ConfirmAction : Type := Unit → Unit

/-- `AppStateData` from src/state.ts. -/
structure AppStateData where
  apiKey : Option String
  selectedModel : String
  customInstructions : String
  currentConversation : List ChatMessage
  isSending : Bool
  currentError : Option String
  isSettingsModalOpen : Bool
  isLogsModalOpen : Bool
  isConfirmModalOpen : Bool
  confirmModalAction : Option ConfirmAction
  confirmModalMessage : String
  isEditModalOpen : Bool
  editingMessage : Option ChatMessage

/--
`AppState.getState` in src/state.ts returns
`JSON.parse(JSON.stringify(this.state))`: a deep copy that is the identity
on every serializable field but drops function-valued fields — so the
snapshot's `confirmModalAction` is always absent (`none`).
-/
def getStateData (s : AppStateData) : AppStateData :=
  { s with confirmModalAction := none }

/-- The store together with a count of `notify()` calls issued so far. -/
structure Store where
  data : AppStateData
  notifications : Nat

/--
One `updateState` step of src/state.ts: replace the state with the merged
result and call `this.notify()` (modelled as incrementing the counter).
-/
def updateStateWith (st : Store) (d : AppStateData) : Store :=
  { data := d, notifications := st.notifications + 1 }

/-- `AppState.addMessage` (src/state.ts): append, clear `currentError`. -/
def addMessage (message : ChatMessage) (st : Store) : Store :=
  updateStateWith st
    { st.data with
      currentConversation := st.data.currentConversation ++ [message]
      currentError := none }

/-- A `Partial<ChatMessage>` patch as passed to `updateMessage`. -/
structure MessagePatch where
  id : Option String := none
  role : Option Role := none
  content : Option (List UserMessageContentPart) := none
  timestamp : Option Nat := none
  meta : Option MessageMeta := none

/--
The merge `{ ...msg, ...newUpdates, meta: { ...msg.meta, ...newUpdates.meta } }`
performed by `AppState.updateMessage` (src/state.ts): patch fields present
in the patch win; the nested `meta` objects are shallow-merged key by key
(spreading an absent `meta` yields `{}`, so the result always has a `meta`
object).
-/
def applyPatch (m : ChatMessage) (p : MessagePatch) : ChatMessage :=
  { id := p.id.getD m.id
    role := p.role.getD m.role
    content := p.content.getD m.content
    timestamp := p.timestamp.getD m.timestamp
    meta :=
      let old := m.meta.getD {}
      let pm := p.meta.getD {}
      some
        { isLoading := pm.isLoading <|> old.isLoading
          error := pm.error <|> old.error
          edited := pm.edited <|> old.edited
          regenerated := pm.regenerated <|> old.regenerated
          originalMessageId := pm.originalMessageId <|> old.originalMessageId } }

/--
`AppState.updateMessage` (src/state.ts): map over the conversation,
merging the patch into the message whose id matches; then `updateState`
(which always notifies, matched or not).
-/
def updateMessage (messageId : String) (p : MessagePatch) (st : Store) : Store :=
  updateStateWith st
    { st.data with
      currentConversation :=
        st.data.currentConversation.map fun msg =>
          if msg.id = messageId then applyPatch msg p else msg }

/-- `AppState.clearConversation` (src/state.ts). -/
def clearConversation (st : Store) : Store :=
  updateStateWith st { st.data with currentConversation := [] }

/-- `AppState.setConversation` (src/state.ts). -/
def setConversation (conversation : List ChatMessage) (st : Store) : Store :=
  updateStateWith st { st.data with currentConversation := conversation }

/-- `AppState.setIsSending` (src/state.ts). -/
def setIsSending (b : Bool) (st : Store) : Store :=
  updateStateWith st { st.data with isSending := b }

/-- `AppState.setError` (src/state.ts). -/
def setError (e : Option String) (st : Store) : Store :=
  updateStateWith st { st.data with currentError := e }

/-- `AppState.openConfirmModal` (src/state.ts). -/
def openConfirmModal (message : String) (action : ConfirmAction) (st : Store) : Store :=
  updateStateWith st
    { st.data with
      isConfirmModalOpen := true
      confirmModalMessage := message
      confirmModalAction := some action }

/-- `AppState.closeConfirmModal` (src/state.ts). -/
def closeConfirmModal (st : Store) : Store :=
  updateStateWith st
    { st.data with
      isConfirmModalOpen := false
      confirmModalMessage := ""
      confirmModalAction := none }

/-! ## The turn compiler: `buildGeminiHistory` (src/app.ts) -/

/-- Roles accepted by the upstream API. -/
inductive GRole where
  | user
  | model
deriving DecidableEq

/-- One part of a compiled turn: `{ text }` or `{ inlineData: { mimeType, data } }`. -/
inductive GeminiPart where
  | text (text : String)
  | inlineData (mimeType : String) (data : String)
deriving DecidableEq

/-- One compiled turn, `GeminiRequestContent`: `{ role, parts }`. -/
structure GeminiContent where
  role : GRole
  parts : List GeminiPart
deriving DecidableEq

/--
The skip condition of the `forEach` body in `buildGeminiHistory`:
`if (msg.role === 'system' || msg.meta?.isLoading || msg.meta?.error) return;`
(JS truthiness: `isLoading` present and `true`; `error` present, nonempty).
-/
def isSkipped (m : ChatMessage) : Bool :=
  m.role = Role.system
    || (m.meta.bind MessageMeta.isLoading).getD false
    || ((m.meta.bind MessageMeta.error).getD "") ≠ ""

/-- The cast `msg.role as 'user' | 'model'` after `system` is filtered. -/
def roleToGemini : Role → Option GRole
  | Role.user => some GRole.user
  | Role.model => some GRole.model
  | Role.system => none

/--
Conversion of one content part inside `buildGeminiHistory`'s inner loop:
a text part maps to `{ text }` unconditionally; an image part maps to
`{ inlineData }` only when `mimeType` and `data` are truthy and taking
`data.split(',')[1]` yields a truthy (present, nonempty) base64 payload.
-/
def partToGemini (p : UserMessageContentPart) : Option GeminiPart :=
  match p.type with
  | PartType.text => some (GeminiPart.text p.data)
  | PartType.image =>
    match p.mimeType with
    | none => none
    | some mt =>
      if mt = "" || p.data = "" then none
      else
        match (p.data.splitOn ",").get? 1 with
        | none => none
        | some b => if b = "" then none else some (GeminiPart.inlineData mt b)

/-- The parts contributed by one message's `content` array. -/
def msgParts (m : ChatMessage) : List GeminiPart :=
  m.content.filterMap partToGemini

/--
The final flush of `buildGeminiHistory`:
`if (currentRole && currentParts.length > 0) history.push(...)`.
-/
def flushFinal : Option (GRole × List GeminiPart) → List GeminiContent
  | none => []
  | some (r, ps) => if ps.isEmpty then [] else [⟨r, ps⟩]

/--
The `forEach` loop of `buildGeminiHistory`, with the accumulator
`(currentRole, currentParts)` made explicit (`none` = `currentRole === null`,
where `currentParts` is necessarily still empty). On a role change the
accumulated turn is flushed — with no emptiness check — and a new
accumulator starts with the new message's parts.
-/
def buildAux : List ChatMessage → Option (GRole × List GeminiPart) → List GeminiContent
  | [], acc => flushFinal acc
  | m :: rest, acc =>
    if isSkipped m then buildAux rest acc
    else
      match roleToGemini m.role with
      | none => buildAux rest acc
      | some r =>
        match acc with
        | none => buildAux rest (some (r, msgParts m))
        | some (cr, ps) =>
          if cr = r then buildAux rest (some (cr, ps ++ msgParts m))
          else ⟨cr, ps⟩ :: buildAux rest (some (r, msgParts m))

/-- `App.buildGeminiHistory` (src/app.ts). -/
def buildGeminiHistory (messages : List ChatMessage) : List GeminiContent :=
  buildAux messages none

/-! ## The app-level handlers (src/app.ts) -/

/-- JS falsiness of the `apiKey` field (`null` or the empty string). -/
def apiKeyMissing : Option String → Bool
  | none => true
  | some s => s = ""

/--
`App.handleSendMessage` (src/app.ts). `now` stands for `Date.now()`;
`apiResult` is the outcome of the awaited `geminiService.generateContent`
call: `Except.ok t` with `t` the extracted `aiResponseText`, or
`Except.error msg` with the thrown error's `message`.
-/
def handleSendMessage (content : List UserMessageContentPart) (now : Nat)
    (apiResult : Except String String) (st : Store) : Store :=
  if st.data.isSending then st
  else if apiKeyMissing st.data.apiKey then
    let st1 := setError (some "API Key not set. Please configure it in Settings.") st
    addMessage
      { id := "err-" ++ toString now
        role := Role.system
        content := [{ type := PartType.text
                      data := "Error: API Key not set. Please configure it in Settings." }]
        timestamp := now
        meta := some { error := some "API Key not set" } } st1
  else
    let st1 := addMessage
      { id := "user-" ++ toString now
        role := Role.user
        content := content
        timestamp := now } st
    let st2 := setIsSending true st1
    let aiThinkingMessageId := "ai-thinking-" ++ toString now
    let st3 := addMessage
      { id := aiThinkingMessageId
        role := Role.model
        content := [{ type := PartType.text, data := "" }]
        timestamp := now
        meta := some { isLoading := some true } } st2
    let st4 :=
      match apiResult with
      | Except.ok text =>
        updateMessage aiThinkingMessageId
          { content := some [{ type := PartType.text, data := text }]
            meta := some { isLoading := some false } } st3
      | Except.error msg =>
        let errorMessage := if msg = "" then "Failed to get response from AI." else msg
        let stE := updateMessage aiThinkingMessageId
          { content := some [{ type := PartType.text, data := "Error: " ++ errorMessage }]
            meta := some { isLoading := some false, error := some errorMessage } } st3
        setError (some errorMessage) stE
    setIsSending false st4

/--
`App.handleRegenerateResponse` (src/app.ts): locate the target model
message, scan backward (modelled by a reverse find on the prefix) for the
nearest preceding user message, truncate to just before the target, and
re-issue that user message's content through `handleSendMessage`.
-/
def handleRegenerateResponse (messageId : String) (now : Nat)
    (apiResult : Except String String) (st : Store) : Store :=
  if st.data.isSending then st
  else
    let conversation := st.data.currentConversation
    match conversation.findIdx? (fun m => m.id = messageId) with
    | none => st
    | some messageIndex =>
      match conversation.get? messageIndex with
      | none => st
      | some target =>
        if target.role = Role.model then
          match (conversation.take messageIndex).reverse.find? (fun m => m.role = Role.user) with
          | none => st
          | some userPromptMessage =>
            let st1 := setConversation (conversation.take messageIndex) st
            handleSendMessage userPromptMessage.content now apiResult st1
        else st

/--
`App.handleEditMessageRequest` (src/app.ts): locate the target user
message, replace its content (marking `meta.edited`), truncate everything
after it, and re-issue the new content through `handleSendMessage`.
-/
def handleEditMessageRequest (messageId : String)
    (newContent : List UserMessageContentPart) (now : Nat)
    (apiResult : Except String String) (st : Store) : Store :=
  if st.data.isSending then st
  else
    let conversation := st.data.currentConversation
    match conversation.findIdx? (fun m => m.id = messageId) with
    | none => st
    | some messageIndex =>
      match conversation.get? messageIndex with
      | none => st
      | some target =>
        if target.role = Role.user then
          let updatedMessage : ChatMessage :=
            { target with
              content := newContent
              timestamp := now
              meta := some { target.meta.getD {} with edited := some true } }
          let st1 := setConversation ((conversation.take messageIndex) ++ [updatedMessage]) st
          handleSendMessage newContent now apiResult st1
        else st

/-! ## Archiving and the new-chat flow (src/app.ts, StorageService) -/

/-- `ArchivedChat` as constructed in `handleNewChatRequest` (src/app.ts). -/
structure ArchivedChat where
  id : String
  timestamp : Nat
  summary : String
  conversation : List ChatMessage
  selectedModel : String
  customInstructions : String
deriving DecidableEq

/-- The store plus the persisted archive collection (localStorage-backed). -/
structure World where
  store : Store
  archive : List ArchivedChat

/--
Modelled from the spec: `StorageService.archiveChat` is invoked by
`handleNewChatRequest` but is not defined anywhere under the sources (the
`StorageService` there only offers `loadArchivedChats`/`saveArchivedChats`).
The spec's lifecycle says the prior snapshot "is pushed into an archive
list, a separate ordered collection of past Conversations", so the chat is
appended to the archive collection.
-/
def archiveChat (c : ArchivedChat) (w : World) : World :=
  { w with archive := w.archive ++ [c] }

/--
The summary computed in `handleNewChatRequest`: the first 50 characters of
the first user message's first text part, or — when that is absent or the
empty string (JS `||` on a falsy substring) — a date-based fallback
(`toLocaleDateString` abstracted as a function of `now`); `"..."` appended.
-/
def chatSummary (conversation : List ChatMessage) (now : Nat) : String :=
  let base :=
    match (conversation.find? (fun m => m.role = Role.user)).bind
        (fun m => (m.content.find? (fun p => p.type = PartType.text)).map
          (fun p => p.data.take 50)) with
    | some s => if s = "" then "Chat from " ++ toString now else s
    | none => "Chat from " ++ toString now
  base ++ "..."

/--
`App.handleNewChatRequest` (src/app.ts): when `saveCurrent` and the
conversation is non-empty, archive it; then clear the conversation, add a
"New chat started." system notice (plus an API-key reminder when no key is
set) and close the confirm modal.
-/
def handleNewChatRequest (saveCurrent : Bool) (now : Nat) (w : World) : World :=
  let conversation := w.store.data.currentConversation
  let w1 :=
    if saveCurrent && !conversation.isEmpty then
      archiveChat
        { id := "archive-" ++ toString now
          timestamp := now
          summary := chatSummary conversation now
          conversation := conversation
          selectedModel := w.store.data.selectedModel
          customInstructions := w.store.data.customInstructions } w
    else w
  let st1 := clearConversation w1.store
  let st2 := addMessage
    { id := "sys-" ++ toString now
      role := Role.system
      content := [{ type := PartType.text, data := "New chat started." }]
      timestamp := now } st1
  let st3 :=
    if apiKeyMissing st2.data.apiKey then
      addMessage
        { id := "sys-nokey-" ++ toString now
          role := Role.system
          content := [{ type := PartType.text
                        data := "Remember to set your API key in Settings if you haven't already." }]
          timestamp := now } st2
    else st2
  { w1 with store := closeConfirmModal st3 }

/-! ## The notification loop (`AppState.notify`, src/state.ts) -/

/--
A subscriber callback; `Except.error` models the callback throwing (the
error value is what would be logged by the `catch` block).
-/
def Subscriber : Type := AppStateData → Except String Unit

/--
The `for (const subscriber of this.subscribers)` loop of `AppState.notify`:
each callback is applied to the one snapshot computed before the loop; a
thrown error is caught and logged (recorded in the result list) and the
loop continues with the next subscriber.
-/
def notifyLoop : List Subscriber → AppStateData → List (Except String Unit)
  | [], _ => []
  | f :: rest, snapshot => f snapshot :: notifyLoop rest snapshot

/--
One full `notify()` call observed from outside: the store itself is not
written by `notify` (the loop only reads the snapshot), and the list of
per-subscriber outcomes is returned for inspection.
-/
def notifyStore (st : Store) (subscribers : List Subscriber) :
    Store × List (Except String Unit) :=
  (st, notifyLoop subscribers (getStateData st.data))

/-! ## Concrete fixtures used by examples, counterexamples and witnesses -/

/-- A plain text content part. -/
def textPart (s : String) : UserMessageContentPart :=
  { type := PartType.text, data := s }

/-- A final user message with a single text part. -/
def userMsg (id : String) (ts : Nat) (s : String) : ChatMessage :=
  { id := id, role := Role.user, content := [textPart s], timestamp := ts }

/-- A final model message with a single text part. -/
def modelMsg (id : String) (ts : Nat) (s : String) : ChatMessage :=
  { id := id, role := Role.model, content := [textPart s], timestamp := ts }

/-- A system message with a single text part. -/
def sysMsg (id : String) (ts : Nat) (s : String) : ChatMessage :=
  { id := id, role := Role.system, content := [textPart s], timestamp := ts }

/-- A pending model message (`meta.isLoading` set, as created mid-send). -/
def pendingMsg (id : String) (ts : Nat) : ChatMessage :=
  { id := id, role := Role.model, content := [textPart ""], timestamp := ts
    meta := some { isLoading := some true } }

/-- A default `AppStateData` with an API key configured. -/
def baseData : AppStateData :=
  { apiKey := some "key"
    selectedModel := "gemini-1.5-flash-latest"
    customInstructions := ""
    currentConversation := []
    isSending := false
    currentError := none
    isSettingsModalOpen := false
    isLogsModalOpen := false
    isConfirmModalOpen := false
    confirmModalAction := none
    confirmModalMessage := ""
    isEditModalOpen := false
    editingMessage := none }

/-- A quiescent store holding the given conversation. -/
def mkStore (conversation : List ChatMessage) : Store :=
  { data := { baseData with currentConversation := conversation }, notifications := 0 }

/-! ## Supporting lemmas about the turn compiler -/

/-- Any first turn produced from a running accumulator carries the accumulator's role. -/
lemma buildAux_head_role (msgs : List ChatMessage) :
    ∀ (cr : GRole) (ps : List GeminiPart) (t : GeminiContent),
      (buildAux msgs (some (cr, ps))).head? = some t → t.role = cr := by
  induction msgs with
  | nil =>
    intro cr ps t h
    simp only [buildAux, flushFinal] at h
    by_cases hps : ps.isEmpty
    · simp [hps] at h
    · simp [hps] at h
      simp [← h]
  | cons m rest ih =>
    intro cr ps t h
    by_cases hskip : isSkipped m = true
    · exact ih cr ps t (by simpa [buildAux, hskip] using h)
    · simp only [buildAux, hskip, Bool.false_eq_true, if_false] at h
      cases hr : roleToGemini m.role with
      | none =>
        rw [hr] at h
        exact ih cr ps t h
      | some r =>
        rw [hr] at h
        dsimp only at h
        by_cases hcr : cr = r
        · rw [if_pos hcr] at h
          exact ih cr _ t h
        · rw [if_neg hcr] at h
          simp at h
          simp [← h]

/-- No two adjacent turns produced by the compiler loop share a role. -/
lemma buildAux_chain (msgs : List ChatMessage) :
    ∀ acc, List.Chain' (fun a b : GeminiContent => a.role ≠ b.role) (buildAux msgs acc) := by
  induction msgs with
  | nil =>
    intro acc
    match acc with
    | none => exact List.chain'_nil
    | some (r, ps) =>
      simp only [buildAux, flushFinal]
      by_cases hps : ps.isEmpty
      · simp [hps]
      · simp [hps]
  | cons m rest ih =>
    intro acc
    by_cases hskip : isSkipped m = true
    · simpa [buildAux, hskip] using ih acc
    · simp only [buildAux, hskip, Bool.false_eq_true, if_false]
      cases hr : roleToGemini m.role with
      | none => exact ih acc
      | some r =>
        match acc with
        | none => exact ih (some (r, msgParts m))
        | some (cr, ps) =>
          dsimp only
          by_cases hcr : cr = r
          · rw [if_pos hcr]
            exact ih (some (cr, ps ++ msgParts m))
          · rw [if_neg hcr]
            rw [List.chain'_cons']
            refine ⟨?_, ih (some (r, msgParts m))⟩
            intro y hy
            have : y.role = r := buildAux_head_role rest r (msgParts m) y hy
            simpa [this] using hcr

/-- Messages the compiler skips can be filtered away up front without changing the output. -/
lemma buildAux_filter (msgs : List ChatMessage) :
    ∀ acc, buildAux msgs acc = buildAux (msgs.filter fun m => !isSkipped m) acc := by
  induction msgs with
  | nil => intro acc; rfl
  | cons m rest ih =>
    intro acc
    by_cases hskip : isSkipped m = true
    · simp only [buildAux, hskip, if_true, List.filter_cons, Bool.not_eq_true']
      rw [if_neg (by simp [hskip])]
      exact ih acc
    · simp only [List.filter_cons]
      rw [if_pos (by simp [hskip])]
      simp only [buildAux, hskip, Bool.false_eq_true, if_false]
      cases hr : roleToGemini m.role with
      | none => exact ih acc
      | some r =>
        match acc with
        | none => exact ih (some (r, msgParts m))
        | some (cr, ps) =>
          dsimp only
          by_cases hcr : cr = r
          · rw [if_pos hcr, if_pos hcr]
            exact ih (some (cr, ps ++ msgParts m))
          · rw [if_neg hcr, if_neg hcr, ih (some (r, msgParts m))]

/-! ## Claim theorems -/

/--
C2 (counterexample): the claim asserts that no output turn ever has an
empty parts list, but `buildGeminiHistory` flushes the running turn on a
role change without checking it for emptiness: a final, non-system user
message whose `content` array is empty contributes an accumulator with no
parts, which is flushed as the turn `{ role: user, parts: [] }` when the
following model message arrives.
-/
theorem c2_counterexample :
    buildGeminiHistory
        [{ id := "u1", role := Role.user, content := [], timestamp := 0 },
         modelMsg "m1" 1 "c"]
      = [⟨GRole.user, []⟩, ⟨GRole.model, [GeminiPart.text "c"]⟩]
    ∧ ((buildGeminiHistory
        [{ id := "u1", role := Role.user, content := [], timestamp := 0 },
         modelMsg "m1" 1 "c"]).any fun t => t.parts.isEmpty) = true := by
  decide

/--
C2 (amended): for every input message list, the turn compiler's output is
an ordered list of `{role, parts}` turns in which no two adjacent turns
share a role, and consecutive eligible same-role messages are coalesced
into a single turn (`[user:"a", user:"b", model:"c"]` compiles to exactly
two turns); however a turn's parts list may be empty, when an eligible
message contributes no convertible parts.
-/
theorem c2_amended :
    (∀ messages : List ChatMessage,
      List.Chain' (fun a b : GeminiContent => a.role ≠ b.role) (buildGeminiHistory messages))
    ∧ buildGeminiHistory [userMsg "u1" 0 "a", userMsg "u2" 1 "b", modelMsg "m1" 2 "c"]
        = [⟨GRole.user, [GeminiPart.text "a", GeminiPart.text "b"]⟩,
           ⟨GRole.model, [GeminiPart.text "c"]⟩] :=
  ⟨fun messages => buildAux_chain messages none, by decide⟩

/--
C3: the turn compiler excludes every `system` message and every message
whose status is pending (`meta.isLoading`) or failed (`meta.error`),
wherever it occurs: compiling a list equals compiling the sublist of
non-skipped (final user/model) messages, so skipped messages contribute
no part to any output turn. Concretely, a `system` and a pending message
interleaved with final user/model messages are excluded entirely.
-/
theorem c3_filter_excluded :
    (∀ messages : List ChatMessage,
      buildGeminiHistory messages
        = buildGeminiHistory (messages.filter fun m => !isSkipped m))
    ∧ buildGeminiHistory
        [sysMsg "s1" 0 "welcome", userMsg "u1" 1 "a", pendingMsg "p1" 2, modelMsg "m1" 3 "b"]
        = [⟨GRole.user, [GeminiPart.text "a"]⟩, ⟨GRole.model, [GeminiPart.text "b"]⟩] :=
  ⟨fun messages => buildAux_filter messages none, by decide⟩

/--
C5: the turn compiler is a pure function of its input message list — in
this embedding it is a Lean function of the list alone, so compiling the
same list twice yields identical output — and compiling the empty list
yields the empty list.
-/
theorem c5_pure :
    (∀ messages : List ChatMessage,
      buildGeminiHistory messages = buildGeminiHistory messages)
    ∧ buildGeminiHistory [] = [] :=
  ⟨fun _ => rfl, rfl⟩

/--
C4 (counterexample): the claim asserts that `addMessage` fails with a
`ValidationError`, leaving the store unchanged, when the new message's id
collides with an existing one; but `AppState.addMessage` performs no id
check at all: appending a second message with id `"a"` succeeds, changes
the store, and leaves the id `"a"` occurring twice in the snapshot — not
exactly once.
-/
theorem c4_counterexample :
    (addMessage (userMsg "a" 1 "y") (mkStore [userMsg "a" 0 "x"])).data.currentConversation
      = [userMsg "a" 0 "x", userMsg "a" 1 "y"]
    ∧ ((addMessage (userMsg "a" 1 "y") (mkStore [userMsg "a" 0 "x"])).data.currentConversation.filter
        fun x => x.id = "a").length = 2 := by
  decide

/--
C4 (amended): `addMessage(msg)` appends `msg` at the tail of the message
list unconditionally — no duplicate-id check is performed and no error is
possible — clears `currentError`, and triggers exactly one notification;
when no existing message shares `msg.id`, the id appears exactly once in
the resulting snapshot's message list, at the tail.
-/
theorem c4_amended (st : Store) (m : ChatMessage) :
    (addMessage m st).data.currentConversation = st.data.currentConversation ++ [m]
    ∧ (addMessage m st).data.currentError = none
    ∧ (addMessage m st).notifications = st.notifications + 1
    ∧ ((∀ m' ∈ st.data.currentConversation, m'.id ≠ m.id) →
        ((addMessage m st).data.currentConversation.filter fun x => x.id = m.id).length = 1) := by
  refine ⟨rfl, rfl, rfl, ?_⟩
  intro h
  have h1 : st.data.currentConversation.filter (fun x => decide (x.id = m.id)) = [] := by
    rw [List.filter_eq_nil_iff]
    intro a ha
    simp [h a ha]
  simp [addMessage, updateStateWith, List.filter_append, h1]

/-- C4 (witness): `c4_amended` at a concrete store and fresh message. -/
theorem c4_witness :
    (addMessage (userMsg "b" 1 "y") (mkStore [userMsg "a" 0 "x"])).data.currentConversation
      = [userMsg "a" 0 "x"] ++ [userMsg "b" 1 "y"]
    ∧ ((addMessage (userMsg "b" 1 "y") (mkStore [userMsg "a" 0 "x"])).data.currentConversation.filter
        fun x => x.id = (userMsg "b" 1 "y").id).length = 1 :=
  ⟨(c4_amended (mkStore [userMsg "a" 0 "x"]) (userMsg "b" 1 "y")).1,
   (c4_amended (mkStore [userMsg "a" 0 "x"]) (userMsg "b" 1 "y")).2.2.2 (by decide)⟩

/--
C6 (counterexample): the claim asserts that `updateMessage` with an absent
id is a no-op with a warning and no subscriber notification; but
`AppState.updateMessage` runs through `updateState`, which always calls
`notify()`: with no message matching id `"zzz"` the conversation is left
unchanged, yet a notification is still triggered (and the code path emits
no warning), so notification is not conditional on the merge changing a
field.
-/
theorem c6_counterexample :
    (updateMessage "zzz" {} (mkStore [userMsg "a" 0 "x"])).data.currentConversation
      = [userMsg "a" 0 "x"]
    ∧ ((mkStore [userMsg "a" 0 "x"]).data.currentConversation.all fun m => m.id ≠ "zzz") = true
    ∧ (updateMessage "zzz" {} (mkStore [userMsg "a" 0 "x"])).notifications
        = (mkStore [userMsg "a" 0 "x"]).notifications + 1 := by
  decide

/--
C6 (amended): `updateMessage(id, patch)` shallow-merges the patch into
every message whose id matches, with a separate shallow merge of the
nested `meta` object (`applyPatch`); when no message has that id the store
data is left unchanged; and in every case — match or no match, changed or
unchanged — exactly one subscriber notification is triggered.
-/
theorem c6_amended (st : Store) (messageId : String) (p : MessagePatch) :
    (updateMessage messageId p st).notifications = st.notifications + 1
    ∧ (updateMessage messageId p st).data.currentConversation
        = st.data.currentConversation.map
            (fun m => if m.id = messageId then applyPatch m p else m)
    ∧ ((∀ m ∈ st.data.currentConversation, m.id ≠ messageId) →
        (updateMessage messageId p st).data = st.data) := by
  refine ⟨rfl, rfl, ?_⟩
  intro h
  have hmap : st.data.currentConversation.map
      (fun m => if m.id = messageId then applyPatch m p else m)
      = st.data.currentConversation := by
    conv_rhs => rw [← List.map_id st.data.currentConversation]
    apply List.map_congr_left
    intro m hm
    simp [h m hm]
  simp [updateMessage, updateStateWith, hmap]

/-- C6 (witness): `c6_amended` at a concrete store and absent id. -/
theorem c6_witness :
    (updateMessage "zzz" {} (mkStore [userMsg "a" 0 "x"])).notifications = 0 + 1
    ∧ (updateMessage "zzz" {} (mkStore [userMsg "a" 0 "x"])).data
        = (mkStore [userMsg "a" 0 "x"]).data :=
  ⟨(c6_amended (mkStore [userMsg "a" 0 "x"]) "zzz" {}).1,
   (c6_amended (mkStore [userMsg "a" 0 "x"]) "zzz" {}).2.2 (by decide)⟩

/-- The notify loop applies every subscriber to the one snapshot, in order. -/
lemma notifyLoop_eq_map (subscribers : List Subscriber) (snapshot : AppStateData) :
    notifyLoop subscribers snapshot = subscribers.map fun f => f snapshot := by
  induction subscribers with
  | nil => rfl
  | cons f rest ih => simp [notifyLoop, ih]

/--
C8: during a notification, an exception thrown by one subscriber is caught
(its `Except.error` outcome is merely recorded/logged): every subscriber,
in particular every later-registered one, is still invoked, each with the
same pre-computed snapshot — the i-th outcome is the i-th subscriber
applied to that snapshot, independent of what earlier subscribers did —
and the store's state after the notification equals its state before,
regardless of which subscribers throw.
-/
theorem c8_notify (st : Store) (subscribers : List Subscriber) :
    (notifyStore st subscribers).1 = st
    ∧ (notifyStore st subscribers).2
        = subscribers.map (fun f => f (getStateData st.data))
    ∧ (notifyStore st subscribers).2.length = subscribers.length := by
  refine ⟨rfl, notifyLoop_eq_map subscribers (getStateData st.data), ?_⟩
  rw [notifyStore, notifyLoop_eq_map, List.length_map]

/--
C9: while `isSending` is true, send, regenerate and edit are all rejected
rather than queued: each handler returns the store exactly as it was — no
message appended, no truncation, no field changed, no notification.
-/
theorem c9_gating (st : Store) (content newContent : List UserMessageContentPart)
    (mid eid : String) (now : Nat) (apiResult : Except String String)
    (h : st.data.isSending = true) :
    handleSendMessage content now apiResult st = st
    ∧ handleRegenerateResponse mid now apiResult st = st
    ∧ handleEditMessageRequest eid newContent now apiResult st = st := by
  refine ⟨?_, ?_, ?_⟩ <;>
    simp [handleSendMessage, handleRegenerateResponse, handleEditMessageRequest, h]

/-- C9 (witness): `c9_gating` at a concrete in-flight store. -/
theorem c9_witness :
    handleSendMessage [textPart "x"] 7 (Except.ok "t")
        { data := { baseData with isSending := true, currentConversation := [userMsg "u1" 0 "hi"] }
          notifications := 0 }
      = { data := { baseData with isSending := true, currentConversation := [userMsg "u1" 0 "hi"] }
          notifications := 0 }
    ∧ handleRegenerateResponse "m1" 7 (Except.ok "t")
        { data := { baseData with isSending := true, currentConversation := [userMsg "u1" 0 "hi"] }
          notifications := 0 }
      = { data := { baseData with isSending := true, currentConversation := [userMsg "u1" 0 "hi"] }
          notifications := 0 } :=
  ⟨(c9_gating _ [textPart "x"] [] "m1" "e" 7 (Except.ok "t") rfl).1,
   (c9_gating _ [textPart "x"] [] "m1" "e" 7 (Except.ok "t") rfl).2.1⟩

/--
C10: `getState` returns a JSON-serialization round-trip of the state
(modelled by `getStateData`): the copy is the identity on every
serializable field, and every function-valued field — in particular the
`confirmModalAction` callback stored by `openConfirmModal` — is absent
(`none`) in the snapshot returned to callers and in the snapshot a
notification passes to subscribers, even immediately after
`openConfirmModal` stored it internally. Mutation of the returned copy
cannot reach the store: the snapshot is an independent value sharing no
mutable structure with the internal state.
-/
theorem c10_snapshot (st : Store) (s : AppStateData) (message : String)
    (action : ConfirmAction) (subscribers : List Subscriber) :
    (getStateData s).confirmModalAction = none
    ∧ (getStateData s).currentConversation = s.currentConversation
    ∧ (getStateData s).apiKey = s.apiKey
    ∧ (getStateData s).isSending = s.isSending
    ∧ (openConfirmModal message action st).data.confirmModalAction = some action
    ∧ (getStateData (openConfirmModal message action st).data).confirmModalAction = none
    ∧ (notifyStore (openConfirmModal message action st) subscribers).2
        = subscribers.map
            (fun f => f (getStateData (openConfirmModal message action st).data)) :=
  ⟨rfl, rfl, rfl, rfl, rfl, rfl,
   notifyLoop_eq_map subscribers (getStateData (openConfirmModal message action st).data)⟩

/-- A quiescent store (API key `k`) holding `[user:"hi", model:"hello"]`. -/
def regenStore (k : String) : Store :=
  { data := { baseData with
      apiKey := some k
      currentConversation := [userMsg "u1" 0 "hi", modelMsg "m1" 1 "hello"] }
    notifications := 0 }

/-- A store whose conversation holds a model message with no preceding user message. -/
def noUserStore : Store := mkStore [modelMsg "m1" 1 "hello"]

/--
C1 (counterexample): the claim asserts that regenerating the last model
message of `[user:"hi", model:"hello"]` leaves, after the new reply
resolves, exactly two messages with no additional copy of the user
message; but `handleRegenerateResponse` re-issues the prompt through
`handleSendMessage`, which appends a brand-new user message before the
pending reply, so the conversation resolves to three messages, with a
second copy of `"hi"` appended under a fresh id.
-/
theorem c1_counterexample :
    (handleRegenerateResponse "m1" 2 (Except.ok "fresh")
        (regenStore "key")).data.currentConversation
      = [userMsg "u1" 0 "hi",
         userMsg "user-2" 2 "hi",
         { id := "ai-thinking-2", role := Role.model, content := [textPart "fresh"]
           timestamp := 2, meta := some { isLoading := some false } }]
    ∧ (handleRegenerateResponse "m1" 2 (Except.ok "fresh")
        (regenStore "key")).data.currentConversation.length = 3 := by
  decide

/--
C1 (amended): regenerate on a target model message scans backward to the
nearest preceding user message (silently aborting, with the store
unchanged, when none exists), truncates the conversation to just before
the target model message, and re-issues that user message's content
through the send path — which appends a fresh copy of the user message;
so for every configured API key and every reply text, regenerating the
last model message of `[user:"hi", model:"hello"]` leaves the
conversation, after the new reply resolves, at
`[user:"hi", user:"hi" (fresh id), model:<new reply>]` — three messages —
with `isSending` cleared again.
-/
theorem c1_amended (k t : String) (apiResult : Except String String) (hk : k ≠ "") :
    (handleRegenerateResponse "m1" 2 (Except.ok t) (regenStore k)).data.currentConversation
      = [userMsg "u1" 0 "hi",
         userMsg "user-2" 2 "hi",
         { id := "ai-thinking-2", role := Role.model, content := [textPart t]
           timestamp := 2, meta := some { isLoading := some false } }]
    ∧ (handleRegenerateResponse "m1" 2 (Except.ok t) (regenStore k)).data.isSending = false
    ∧ handleRegenerateResponse "m1" 3 apiResult noUserStore = noUserStore := by
  have hmiss : apiKeyMissing (some k) = false := by simp [apiKeyMissing, hk]
  refine ⟨?_, ?_, rfl⟩
  · simp [handleRegenerateResponse, handleSendMessage, regenStore, baseData, mkStore,
      setConversation, setIsSending, setError, addMessage, updateMessage, updateStateWith,
      applyPatch, userMsg, modelMsg, textPart, hmiss]
    refine ⟨by decide, ?_, by decide⟩
    rw [if_neg (by decide)]
    decide
  · simp [handleRegenerateResponse, handleSendMessage, regenStore, baseData, mkStore,
      setConversation, setIsSending, setError, addMessage, updateMessage, updateStateWith,
      applyPatch, userMsg, modelMsg, textPart, hmiss]

/-- C1 (witness): `c1_amended` at a concrete key and reply text. -/
theorem c1_witness :
    (handleRegenerateResponse "m1" 2 (Except.ok "fresh")
        (regenStore "key2")).data.currentConversation
      = [userMsg "u1" 0 "hi",
         userMsg "user-2" 2 "hi",
         { id := "ai-thinking-2", role := Role.model, content := [textPart "fresh"]
           timestamp := 2, meta := some { isLoading := some false } }]
    ∧ handleRegenerateResponse "m1" 3 (Except.ok "x") noUserStore = noUserStore :=
  ⟨(c1_amended "key2" "fresh" (Except.ok "x") (by decide)).1,
   (c1_amended "key2" "fresh" (Except.ok "x") (by decide)).2.2⟩

/-- The initial world for the archive counterexample and witness. -/
def c7World : World := { store := mkStore [userMsg "u1" 0 "hi"], archive := [] }

/--
C7 (counterexample): the claim asserts archive-and-reset leaves the
working message list empty; `handleNewChatRequest` does grow the archive
by one on a saved non-empty conversation, but after clearing it appends a
"New chat started." system notice, so the resulting message list is not
empty.
-/
theorem c7_counterexample :
    (handleNewChatRequest true 5 c7World).archive.length = 1
    ∧ (handleNewChatRequest true 5 c7World).store.data.currentConversation
        = [sysMsg "sys-5" 5 "New chat started."]
    ∧ (handleNewChatRequest true 5 c7World).store.data.currentConversation.isEmpty = false := by
  decide

/--
C7 (amended): archive-and-reset (`handleNewChatRequest` with
`saveCurrent = true`) on a non-empty conversation increases the archive
collection's length by exactly one, and on an empty conversation leaves
the archive unchanged; in both cases the working message list is reset to
contain only the freshly added system notices ("New chat started.", plus
an API-key reminder when no key is configured) — every remaining message
has role `system`, so no user/model message survives.
-/
theorem c7_amended (w : World) (now : Nat) :
    ((handleNewChatRequest true now w).archive.length
      = if w.store.data.currentConversation.isEmpty then w.archive.length
        else w.archive.length + 1)
    ∧ (handleNewChatRequest true now w).store.data.currentConversation
        = (if apiKeyMissing w.store.data.apiKey then
            [sysMsg ("sys-" ++ toString now) now "New chat started.",
             sysMsg ("sys-nokey-" ++ toString now) now
               "Remember to set your API key in Settings if you haven't already."]
          else [sysMsg ("sys-" ++ toString now) now "New chat started."])
    ∧ (∀ m ∈ (handleNewChatRequest true now w).store.data.currentConversation,
        m.role = Role.system) := by
  have hconv : (handleNewChatRequest true now w).store.data.currentConversation
      = (if apiKeyMissing w.store.data.apiKey then
          [sysMsg ("sys-" ++ toString now) now "New chat started.",
           sysMsg ("sys-nokey-" ++ toString now) now
             "Remember to set your API key in Settings if you haven't already."]
        else [sysMsg ("sys-" ++ toString now) now "New chat started."]) := by
    by_cases hkey : apiKeyMissing w.store.data.apiKey = true <;>
      by_cases hempty : w.store.data.currentConversation.isEmpty = true <;>
      simp [handleNewChatRequest, archiveChat, clearConversation, addMessage,
        closeConfirmModal, updateStateWith, hempty, hkey, sysMsg, textPart]
  refine ⟨?_, hconv, ?_⟩
  · by_cases hempty : w.store.data.currentConversation.isEmpty = true <;>
      simp [handleNewChatRequest, archiveChat, clearConversation, addMessage,
        closeConfirmModal, updateStateWith, hempty]
  · intro m hm
    rw [hconv] at hm
    by_cases hkey : apiKeyMissing w.store.data.apiKey = true
    · simp [hkey] at hm
      rcases hm with hm | hm <;> simp [hm, sysMsg]
    · simp [hkey] at hm
      simp [hm, sysMsg]

/-- C7 (witness): `c7_amended` at a concrete non-empty world. -/
theorem c7_witness :
    ((handleNewChatRequest true 5 c7World).archive.length
      = if c7World.store.data.currentConversation.isEmpty then c7World.archive.length
        else c7World.archive.length + 1)
    ∧ (sysMsg "sys-5" 5 "New chat started.").role = Role.system :=
  ⟨(c7_amended c7World 5).1,
   (c7_amended c7World 5).2.2 (sysMsg "sys-5" 5 "New chat started.") (by decide)⟩

end GeminiChat
